import Mathlib

/-!
Verification development for the ras_eye repository (face-tracking pan/tilt
rig with ultrasonic proximity warning).  The three C++ programs
(`ras_eye01.cpp`, `ras_eye02.cpp`, `tyouonpa01.cpp`) are shallowly embedded
below.  C++ `float`/`double` arithmetic is modelled by exact rational
arithmetic (`ℚ`); pixel coordinates are `ℤ`; the microsecond timebase of
`gpioTick` is `ℕ`.  The polled GPIO environment (echo line, clock) is passed
in explicitly as functions of the poll/tick call index, and the busy-wait
loops are given a fuel parameter: a result of `none` means the loop was
still spinning when the fuel ran out.
-/

/-! ## Configuration constants (ras_eye01.cpp / ras_eye02.cpp) -/

def CAMERA_WIDTH : ℤ := 640
def CAMERA_HEIGHT : ℤ := 480
def CAMERA_CENTER_X : ℤ := CAMERA_WIDTH / 2
def CAMERA_CENTER_Y : ℤ := CAMERA_HEIGHT / 2

/-- `const float Kp_PAN = 0.005;` (exact value of the decimal literal). -/
def Kp_PAN : ℚ := 5 / 1000
/-- `const float Kp_TILT = 0.005;` -/
def Kp_TILT : ℚ := 5 / 1000
/-- `const int DEAD_ZONE = 15;` -/
def DEAD_ZONE : ℤ := 15
/-- `const float DISTANCE_THRESHOLD = 40.0;` -/
def DISTANCE_THRESHOLD : ℚ := 40

/-! ## Data model -/

/-- The pair of servo pulse-width commands (`current_pan_angle`,
`current_tilt_angle` in ras_eye01.cpp; `g_current_pan_angle`,
`g_current_tilt_angle` in ras_eye02.cpp). -/
structure ActuatorState where
  pan : ℚ
  tilt : ℚ
deriving DecidableEq, Repr

/-- Initial servo state: both globals are declared `= 1500`. -/
def initial_state : ActuatorState := ⟨1500, 1500⟩

/-! ## Pan/Tilt controller

`control_pan_tilt` in ras_eye02.cpp (lines 120-144); the same statements
appear inlined in the main loop of ras_eye01.cpp (lines 129-147).
The range limiting is the sequential pair of `if` statements
`if (v < 1000) v = 1000; if (v > 2000) v = 2000;`. -/

def clampCmd (x : ℚ) : ℚ :=
  if x < 1000 then 1000 else if x > 2000 then 2000 else x

/-- `void control_pan_tilt(int nose_x, int nose_y)` acting on the servo
state.  The "no target" sentinel from `find_nose` is `(-1, -1)`; the guard
in the source is `nose_x == -1 || nose_y == -1`.  Each axis is touched only
when its error exceeds `DEAD_ZONE`. -/
def control_pan_tilt (nose_x nose_y : ℤ) (s : ActuatorState) : ActuatorState :=
  if nose_x = -1 ∨ nose_y = -1 then s
  else
    { pan :=
        if |nose_x - CAMERA_CENTER_X| > DEAD_ZONE then
          clampCmd (s.pan - Kp_PAN * ((nose_x - CAMERA_CENTER_X : ℤ) : ℚ))
        else s.pan,
      tilt :=
        if |nose_y - CAMERA_CENTER_Y| > DEAD_ZONE then
          clampCmd (s.tilt + Kp_TILT * ((nose_y - CAMERA_CENTER_Y : ℤ) : ℚ))
        else s.tilt }

/-- Iterated controller: feed a sequence of located targets through
`control_pan_tilt`, one per loop cycle. -/
def runController (targets : List (ℤ × ℤ)) (s : ActuatorState) : ActuatorState :=
  targets.foldl (fun acc t => control_pan_tilt t.1 t.2 acc) s

/-! ## Proximity alert decisions

ras_eye02.cpp main, lines 222-226:
`if (distance_cm != 999.0 && distance_cm < DISTANCE_THRESHOLD)` turn the LED
on, else off.  tyouonpa01.cpp main, lines 95-105:
`if (distance > 0) { if (distance <= WARNING_DISTANCE_CM) led on; else off; }
else led off`.  The threshold constant is `DISTANCE_THRESHOLD` (40.0) in
ras_eye02 and `WARNING_DISTANCE_CM` (45.0) in tyouonpa01; it is kept as a
parameter here. -/

/-- `const float WARNING_DISTANCE_CM = 45.0;` (tyouonpa01.cpp) -/
def WARNING_DISTANCE_CM : ℚ := 45
/-- `const float SOUND_SPEED_CM_PER_S = 34300.0;` (tyouonpa01.cpp) -/
def SOUND_SPEED_CM_PER_S : ℚ := 34300

def led_on_ras_eye02 (distance_cm threshold : ℚ) : Bool :=
  decide (distance_cm ≠ 999) && decide (distance_cm < threshold)

def led_on_tyouonpa (distance threshold : ℚ) : Bool :=
  if distance > 0 then decide (distance ≤ threshold) else false

/-! ## Distance sensor driver

tyouonpa01.cpp `get_distance_ultrasonic` (lines 15-62) and ras_eye02.cpp
`get_distance_ultrasonic` (lines 147-180).  The GPIO/clock environment is
injected: `echo i` is the value returned by the i-th `gpioRead(ECHO_PIN)`
call of the measurement, and `tick k` (resp. `now n`) the value returned by
the k-th `gpioTick()` (resp. n-th `high_resolution_clock::now()`, in
seconds) call.  `fuel` bounds the number of loop iterations the model will
execute; exhausted fuel (`spin` / `none`) means the busy-wait was still
running. -/

/-- Distance formula of tyouonpa01.cpp line 54:
`(pulse_duration_us / 1000000.0) * SOUND_SPEED_CM_PER_S / 2.0`. -/
def distance_from_pulse (pulse_duration_us : ℤ) : ℚ :=
  ((pulse_duration_us : ℚ) / 1000000) * SOUND_SPEED_CM_PER_S / 2

/-- Range filter of tyouonpa01.cpp lines 57-59: results outside [0, 400]
become the failure sentinel -1.0. -/
def filter_distance_tyo (d : ℚ) : ℚ :=
  if d < 0 ∨ d > 400 then -1 else d

/-- Outcome of one busy-wait loop: `spin` = fuel exhausted while still
polling, `fail` = the timeout branch returned the sentinel, `done` = the
awaited edge was seen (carrying the rolling marker value and the next
read/tick call indices). -/
inductive WaitOut where
  | spin : WaitOut
  | fail : WaitOut
  | done : ℕ → ℕ → ℕ → WaitOut
deriving DecidableEq, Repr

/-- The edge-wait loops of tyouonpa01.cpp (lines 28-34 with `stop = true`,
lines 39-45 with `stop = false`):
`while (gpioRead(ECHO_PIN) == 0) { if (gpioTick() - start > 50000) return -1.0;
start = gpioTick(); }` — note the marker `start` is refreshed at the end of
every iteration, so each iteration consumes one read and two tick calls. -/
def wait_edge_tyo (echo : ℕ → Bool) (tick : ℕ → ℕ) (stop : Bool) :
    ℕ → ℕ → ℕ → ℕ → WaitOut
  | 0, _, _, _ => WaitOut.spin
  | fuel + 1, i, k, start =>
    if echo i = stop then WaitOut.done start (i + 1) k
    else if tick k - start > 50000 then WaitOut.fail
    else wait_edge_tyo echo tick stop fuel (i + 1) (k + 2) (tick (k + 1))

/-- `float get_distance_ultrasonic()` of tyouonpa01.cpp.  The initial
`gpioTick()` is call 0; on a rising edge the recorded `start_tick` is the
marker value, then `end_time_us = gpioTick()` starts the falling-edge wait.
`none` = still busy-waiting when the fuel ran out. -/
def get_distance_ultrasonic_tyo (echo : ℕ → Bool) (tick : ℕ → ℕ)
    (fuel : ℕ) : Option ℚ :=
  match wait_edge_tyo echo tick true fuel 0 1 (tick 0) with
  | WaitOut.spin => none
  | WaitOut.fail => some (-1)
  | WaitOut.done start_tick i k =>
    match wait_edge_tyo echo tick false fuel i (k + 1) (tick k) with
    | WaitOut.spin => none
    | WaitOut.fail => some (-1)
    | WaitOut.done end_tick _ _ =>
      some (filter_distance_tyo
        (distance_from_pulse ((end_tick : ℤ) - (start_tick : ℤ))))

/-- Outcome of one busy-wait loop of ras_eye02.cpp, whose rolling marker is a
`chrono` time in seconds (`ℚ` here). -/
inductive WaitOutQ where
  | spin : WaitOutQ
  | fail : WaitOutQ
  | done : ℚ → ℕ → ℕ → WaitOutQ
deriving DecidableEq, Repr

/-- The edge-wait loops of ras_eye02.cpp (lines 160-163 with `stop = true`,
lines 167-170 with `stop = false`):
`while (gpioRead(ECHO_PIN) == 0) { marker = now(); if (marker - timeout_start
> 0.1) return 999.0; }` — here `timeout_start` is fixed for the whole wait
and only the pulse marker is refreshed (one `now()` call per iteration). -/
def wait_edge_eye2 (echo : ℕ → Bool) (now : ℕ → ℚ) (stop : Bool) :
    ℕ → ℕ → ℕ → ℚ → ℚ → WaitOutQ
  | 0, _, _, _, _ => WaitOutQ.spin
  | fuel + 1, i, n, marker, tstart =>
    if echo i = stop then WaitOutQ.done marker (i + 1) n
    else if now n - tstart > 1 / 10 then WaitOutQ.fail
    else wait_edge_eye2 echo now stop fuel (i + 1) (n + 1) (now n) tstart

/-- `float get_distance_ultrasonic()` of ras_eye02.cpp.  `now` calls 0, 1, 2
respectively seed `pulse_start_time`, `pulse_end_time` and the first
`timeout_start`; call `n` (after the rising edge at next index `n`) reseeds
`timeout_start` for the falling-edge wait.  Sentinel is 999.0; the computed
distance is `(pulse_end - pulse_start) * 34300.0 / 2.0` filtered to
[0, 400]. -/
def get_distance_ultrasonic_eye2 (echo : ℕ → Bool) (now : ℕ → ℚ)
    (fuel : ℕ) : Option ℚ :=
  match wait_edge_eye2 echo now true fuel 0 3 (now 0) (now 2) with
  | WaitOutQ.spin => none
  | WaitOutQ.fail => some 999
  | WaitOutQ.done pulse_start i n =>
    match wait_edge_eye2 echo now false fuel i (n + 1) (now 1) (now n) with
    | WaitOutQ.spin => none
    | WaitOutQ.fail => some 999
    | WaitOutQ.done pulse_end _ _ =>
      if (pulse_end - pulse_start) * 34300 / 2 < 0 ∨
          (pulse_end - pulse_start) * 34300 / 2 > 400 then some 999
      else some ((pulse_end - pulse_start) * 34300 / 2)

/-- Echo line that never goes high (no echo pulse arrives). -/
def echo_stuck_low : ℕ → Bool := fun _ => false

/-- Fake timebase advancing 10 µs per `gpioTick` call: each poll iteration
of the wait loop takes 20 µs of clock time. -/
def tick_10us_per_call : ℕ → ℕ := fun k => 10 * k

/-- Echo line that is high exactly on the first read: the rising edge is
seen immediately and the falling edge on the next read. -/
def echo_one_pulse : ℕ → Bool := fun i => i == 0

/-- Fake timebase advancing 1000 µs per `gpioTick` call. -/
def tick_1000us_per_call : ℕ → ℕ := fun k => 1000 * k

/-- Fake `chrono` clock advancing 1 ms (1/1000 s) per `now()` call. -/
def now_ms_per_call : ℕ → ℚ := fun n => (n : ℚ) / 1000

/-! ## Control-loop iteration structure

One iteration of the main loop after a successful frame grab, reduced to the
externally observable events relevant to the loop-structure claims.  The
sensor outcome is injected: for ras_eye02 the value returned by
`get_distance_ultrasonic`, for ras_eye01 the measured `duration_s` (seconds)
from which the inlined code computes the distance. -/

structure IterEvents where
  sensor_invoked : Bool
  settle_sleep : Bool
  led_on : Bool
deriving DecidableEq, Repr

/-- ras_eye02.cpp main loop body (lines 207-226): `control_pan_tilt` always
runs, the 50 ms settle sleep is guarded by `nose_position.x != -1`, the
sensor is read unconditionally, and the LED is written from the alert rule
every iteration. -/
def ras_eye02_iteration (nose_x nose_y : ℤ) (s : ActuatorState)
    (distance_cm : ℚ) : ActuatorState × IterEvents :=
  (control_pan_tilt nose_x nose_y s,
    { sensor_invoked := true,
      settle_sleep := decide (nose_x ≠ -1),
      led_on := led_on_ras_eye02 distance_cm DISTANCE_THRESHOLD })

/-- ras_eye01.cpp main loop body (lines 129-196): servo update, settle
sleep, ultrasonic measurement and alert evaluation all live inside
`if (nose_x != -1 && nose_y != -1)`; in the else branch the servos are
re-emitted at the held position, no measurement happens, and the LED is
switched off. -/
def ras_eye01_iteration (nose_x nose_y : ℤ) (s : ActuatorState)
    (duration_s : ℚ) : ActuatorState × IterEvents :=
  if nose_x ≠ -1 ∧ nose_y ≠ -1 then
    let distance_cm : ℚ := duration_s * 34300 / 2
    let filtered : ℚ := if distance_cm < 0 ∨ distance_cm > 400 then 999 else distance_cm
    (control_pan_tilt nose_x nose_y s,
      { sensor_invoked := true,
        settle_sleep := true,
        led_on := decide (filtered < DISTANCE_THRESHOLD) })
  else
    (s, { sensor_invoked := false, settle_sleep := false, led_on := false })

/-! ## Helper lemmas about the controller -/

theorem clampCmd_bounds (x : ℚ) : 1000 ≤ clampCmd x ∧ clampCmd x ≤ 2000 := by
  unfold clampCmd
  split_ifs <;> constructor <;> linarith

theorem clampCmd_of_le (x : ℚ) (h : x ≤ 1000) : clampCmd x = 1000 := by
  unfold clampCmd
  split_ifs <;> linarith

theorem control_pan_tilt_pan (nose_x nose_y : ℤ) (s : ActuatorState) :
    (control_pan_tilt nose_x nose_y s).pan =
      if nose_x = -1 ∨ nose_y = -1 then s.pan
      else if |nose_x - CAMERA_CENTER_X| > DEAD_ZONE then
        clampCmd (s.pan - Kp_PAN * ((nose_x - CAMERA_CENTER_X : ℤ) : ℚ))
      else s.pan := by
  unfold control_pan_tilt
  split_ifs <;> rfl

theorem control_pan_tilt_tilt (nose_x nose_y : ℤ) (s : ActuatorState) :
    (control_pan_tilt nose_x nose_y s).tilt =
      if nose_x = -1 ∨ nose_y = -1 then s.tilt
      else if |nose_y - CAMERA_CENTER_Y| > DEAD_ZONE then
        clampCmd (s.tilt + Kp_TILT * ((nose_y - CAMERA_CENTER_Y : ℤ) : ℚ))
      else s.tilt := by
  unfold control_pan_tilt
  split_ifs <;> rfl

theorem runController_pinned_low (targets : List (ℤ × ℤ)) :
    ∀ s : ActuatorState,
      (∀ t ∈ targets, DEAD_ZONE < t.1 - CAMERA_CENTER_X) →
      s.pan = 1000 → (runController targets s).pan = 1000 := by
  induction targets with
  | nil => intro s _ hs; simpa [runController] using hs
  | cons t ts ih =>
      intro s hmem hs
      have hstep : (control_pan_tilt t.1 t.2 s).pan = 1000 := by
        have he : DEAD_ZONE < t.1 - CAMERA_CENTER_X := hmem t (by simp)
        rw [control_pan_tilt_pan]
        split_ifs with h1 h2
        · exact hs
        · apply clampCmd_of_le
          rw [hs]
          have he16 : (16 : ℚ) ≤ ((t.1 - CAMERA_CENTER_X : ℤ) : ℚ) := by
            have h16 : (16 : ℤ) ≤ t.1 - CAMERA_CENTER_X := by
              have h15 : (15 : ℤ) < t.1 - CAMERA_CENTER_X := he
              omega
            exact_mod_cast h16
          unfold Kp_PAN
          linarith
        · exfalso
          apply h2
          have h0 : (0 : ℤ) ≤ t.1 - CAMERA_CENTER_X := by
            have := hmem t (by simp)
            unfold DEAD_ZONE at this
            omega
          rw [abs_of_nonneg h0]
          exact hmem t (by simp)
      have : runController (t :: ts) s = runController ts (control_pan_tilt t.1 t.2 s) := by
        simp [runController]
      rw [this]
      exact ih _ (fun u hu => hmem u (by simp [hu])) hstep

/-! ## Claim theorems for the controller -/

/-- Claim C1: every state the controller produces from an in-range state has
both commands in [1000, 2000] for every target; the initial state is the
midpoint 1500; and from pan = 1000 any sequence of targets whose x-error
exceeds the dead zone on the positive side leaves pan pinned at 1000. -/
theorem C1_clamp_invariant :
    (∀ (nose_x nose_y : ℤ) (s : ActuatorState),
        1000 ≤ s.pan → s.pan ≤ 2000 → 1000 ≤ s.tilt → s.tilt ≤ 2000 →
        1000 ≤ (control_pan_tilt nose_x nose_y s).pan ∧
        (control_pan_tilt nose_x nose_y s).pan ≤ 2000 ∧
        1000 ≤ (control_pan_tilt nose_x nose_y s).tilt ∧
        (control_pan_tilt nose_x nose_y s).tilt ≤ 2000) ∧
    (initial_state.pan = 1500 ∧ initial_state.tilt = 1500 ∧
      1000 ≤ initial_state.pan ∧ initial_state.pan ≤ 2000 ∧
      1000 ≤ initial_state.tilt ∧ initial_state.tilt ≤ 2000) ∧
    (∀ (targets : List (ℤ × ℤ)) (s : ActuatorState),
        (∀ t ∈ targets, DEAD_ZONE < t.1 - CAMERA_CENTER_X) →
        s.pan = 1000 → (runController targets s).pan = 1000) := by
  refine ⟨?_, ?_, ?_⟩
  · intro nose_x nose_y s h1 h2 h3 h4
    rw [control_pan_tilt_pan, control_pan_tilt_tilt]
    split_ifs with ha hb hc hd
    · exact ⟨h1, h2, h3, h4⟩
    · refine ⟨?_, ?_, (clampCmd_bounds _).1, (clampCmd_bounds _).2⟩
      · exact (clampCmd_bounds _).1
      · exact (clampCmd_bounds _).2
    · exact ⟨(clampCmd_bounds _).1, (clampCmd_bounds _).2, h3, h4⟩
    · exact ⟨h1, h2, (clampCmd_bounds _).1, (clampCmd_bounds _).2⟩
    · exact ⟨h1, h2, h3, h4⟩
  · refine ⟨rfl, rfl, ?_, ?_, ?_, ?_⟩ <;> norm_num [initial_state]
  · exact fun targets s h hs => runController_pinned_low targets s h hs

/-- Witness for C1 at concrete inputs: target (420, 300) from the initial
state, and a two-step pin sequence from pan = 1000. -/
theorem C1_clamp_invariant_witness :
    (1000 ≤ (control_pan_tilt 420 300 initial_state).pan ∧
      (control_pan_tilt 420 300 initial_state).pan ≤ 2000 ∧
      1000 ≤ (control_pan_tilt 420 300 initial_state).tilt ∧
      (control_pan_tilt 420 300 initial_state).tilt ≤ 2000) ∧
    (runController [(400, 240), (500, 250)] ⟨1000, 1500⟩).pan = 1000 :=
  ⟨C1_clamp_invariant.1 420 300 initial_state (by norm_num [initial_state])
      (by norm_num [initial_state]) (by norm_num [initial_state])
      (by norm_num [initial_state]),
    C1_clamp_invariant.2.2 [(400, 240), (500, 250)] ⟨1000, 1500⟩
      (by decide) rfl⟩

/-- Claim C3: when the target is the "no target" sentinel (-1, -1), the
controller returns the state unchanged — actuators hold position. -/
theorem C3_no_target_hold (s : ActuatorState) :
    control_pan_tilt (-1) (-1) s = s := by
  simp [control_pan_tilt]

/-- Claim C4: a target whose x lies within the dead zone of the centre leaves
the pan command exactly unchanged, and symmetrically for tilt. -/
theorem C4_dead_zone (nose_x nose_y : ℤ) (s : ActuatorState) :
    (|nose_x - CAMERA_CENTER_X| ≤ DEAD_ZONE →
      (control_pan_tilt nose_x nose_y s).pan = s.pan) ∧
    (|nose_y - CAMERA_CENTER_Y| ≤ DEAD_ZONE →
      (control_pan_tilt nose_x nose_y s).tilt = s.tilt) := by
  constructor
  · intro h
    rw [control_pan_tilt_pan]
    split_ifs with h1 h2
    · rfl
    · omega
    · rfl
  · intro h
    rw [control_pan_tilt_tilt]
    split_ifs with h1 h2
    · rfl
    · omega
    · rfl

/-- Witness for C4: target (330, 250) is within the dead zone on both axes,
so the state (1500, 1500) is returned untouched. -/
theorem C4_dead_zone_witness :
    (control_pan_tilt 330 250 initial_state).pan = initial_state.pan ∧
    (control_pan_tilt 330 250 initial_state).tilt = initial_state.tilt :=
  ⟨(C4_dead_zone 330 250 initial_state).1 (by decide),
    (C4_dead_zone 330 250 initial_state).2 (by decide)⟩

/-- Claim C5 counterexample: with centre x = 320, Kp_PAN = 0.005, pan = 1500
and target x = 420 (error 100), the code yields pan = 1499.5, not the 1495.0
the claim states. -/
theorem C5_worked_example_counterexample :
    (control_pan_tilt 420 240 initial_state).pan = 2999 / 2 ∧
    ((2999 : ℚ) / 2 ≠ 1495) := by
  constructor
  · rw [control_pan_tilt_pan]
    norm_num [CAMERA_CENTER_X, CAMERA_WIDTH, DEAD_ZONE, Kp_PAN, initial_state,
      clampCmd]
  · norm_num

/-- Claim C5 as amended: the update at target x = 420 from pan = 1500 returns
pan = 1500 - 0.005 * 100 = 1499.5 (and tilt unchanged, since the y-error is
zero). -/
theorem C5_worked_example :
    control_pan_tilt 420 240 initial_state = ⟨2999 / 2, 1500⟩ := by
  unfold control_pan_tilt
  norm_num [CAMERA_CENTER_X, CAMERA_WIDTH, CAMERA_CENTER_Y, CAMERA_HEIGHT,
    DEAD_ZONE, Kp_PAN, initial_state, clampCmd]

/-- Claim C9: outside the dead zone on both axes (for a genuine target), the
pan axis subtracts its proportional term while the tilt axis adds its own —
the asymmetric sign convention, followed by the clamp. -/
theorem C9_sign_convention (nose_x nose_y : ℤ) (s : ActuatorState)
    (hx : nose_x ≠ -1) (hy : nose_y ≠ -1)
    (hdx : |nose_x - CAMERA_CENTER_X| > DEAD_ZONE)
    (hdy : |nose_y - CAMERA_CENTER_Y| > DEAD_ZONE) :
    control_pan_tilt nose_x nose_y s =
      { pan := clampCmd (s.pan - Kp_PAN * ((nose_x - CAMERA_CENTER_X : ℤ) : ℚ)),
        tilt := clampCmd (s.tilt + Kp_TILT * ((nose_y - CAMERA_CENTER_Y : ℤ) : ℚ)) } := by
  unfold control_pan_tilt
  rw [if_neg (by tauto), if_pos hdx, if_pos hdy]

/-- Witness for C9 at target (420, 300) from the initial state. -/
theorem C9_sign_convention_witness :
    control_pan_tilt 420 300 initial_state =
      { pan := clampCmd (initial_state.pan - Kp_PAN * ((420 - CAMERA_CENTER_X : ℤ) : ℚ)),
        tilt := clampCmd (initial_state.tilt + Kp_TILT * ((300 - CAMERA_CENTER_Y : ℤ) : ℚ)) } :=
  C9_sign_convention 420 300 initial_state (by decide) (by decide)
    (by decide) (by decide)

/-! ## Helper lemmas about the sensor model -/

theorem wait_edge_tyo_succ (echo : ℕ → Bool) (tick : ℕ → ℕ) (stop : Bool)
    (fuel i k start : ℕ) :
    wait_edge_tyo echo tick stop (fuel + 1) i k start =
      if echo i = stop then WaitOut.done start (i + 1) k
      else if tick k - start > 50000 then WaitOut.fail
      else wait_edge_tyo echo tick stop fuel (i + 1) (k + 2) (tick (k + 1)) :=
  rfl

/-- With a stuck-low echo line and a clock advancing 10 µs per call, each
iteration of the tyouonpa01 rising-edge wait sees only the 20 µs since its
own refreshed marker, so the 50 ms timeout branch is never taken and the
loop consumes all its fuel. -/
theorem wait_edge_tyo_stuck_spins (fuel : ℕ) :
    ∀ i k, wait_edge_tyo echo_stuck_low tick_10us_per_call true fuel
        i (k + 1) (tick_10us_per_call k) = WaitOut.spin := by
  induction fuel with
  | zero => intro i k; rfl
  | succ fuel ih =>
      intro i k
      rw [wait_edge_tyo_succ]
      rw [if_neg (by simp [echo_stuck_low])]
      rw [if_neg (by simp only [tick_10us_per_call]; omega)]
      exact ih (i + 1) (k + 2)

theorem filter_distance_tyo_cases (x : ℚ) :
    filter_distance_tyo x = -1 ∨
      (0 ≤ filter_distance_tyo x ∧ filter_distance_tyo x ≤ 400) := by
  unfold filter_distance_tyo
  split_ifs with h
  · exact Or.inl rfl
  · push_neg at h
    exact Or.inr ⟨h.1, h.2⟩

/-! ## Claim theorems for the alert rule, the sensor and the loop -/

/-- Claim C2 counterexample: in tyouonpa01.cpp a valid reading exactly equal
to the threshold (45.0) turns the LED on, while the claim demands false at
the boundary (strict inequality). -/
theorem C2_alert_rule_counterexample :
    led_on_tyouonpa 45 WARNING_DISTANCE_CM = true ∧
      ¬((45 : ℚ) < WARNING_DISTANCE_CM) := by
  constructor
  · norm_num [led_on_tyouonpa, WARNING_DISTANCE_CM]
  · norm_num [WARNING_DISTANCE_CM]

/-- Claim C2 as amended: in ras_eye02 the LED decision is true iff the
reading differs from the 999 sentinel and is strictly below the threshold;
in tyouonpa01 the LED is on iff the reading is strictly positive and is at
most the threshold (boundary included, zero reading treated as failure). -/
theorem C2_alert_rule (d t : ℚ) :
    (led_on_ras_eye02 d t = true ↔ d ≠ 999 ∧ d < t) ∧
    (led_on_tyouonpa d t = true ↔ 0 < d ∧ d ≤ t) := by
  constructor
  · simp [led_on_ras_eye02]
  · by_cases h : d > 0 <;> simp [led_on_tyouonpa, h]

/-- Claim C6: the driver computes
`distance_cm = duration_seconds * 34300 / 2`, so a 1000 µs pulse gives
exactly 17.15 cm (a valid, unfiltered reading), and every computed value
outside [0, 400] is mapped to the invalid sentinel. -/
theorem C6_distance_computation :
    distance_from_pulse 1000 = 1715 / 100 ∧
    filter_distance_tyo (distance_from_pulse 1000) = 1715 / 100 ∧
    (∀ d : ℚ, (d < 0 ∨ d > 400) → filter_distance_tyo d = -1) := by
  refine ⟨?_, ?_, ?_⟩
  · norm_num [distance_from_pulse, SOUND_SPEED_CM_PER_S]
  · norm_num [distance_from_pulse, filter_distance_tyo, SOUND_SPEED_CM_PER_S]
  · intro d hd
    unfold filter_distance_tyo
    rw [if_pos hd]

/-- Witness for C6: the out-of-range value 450 cm is mapped to the
sentinel. -/
theorem C6_distance_computation_witness :
    ((450 : ℚ) < 0 ∨ (450 : ℚ) > 400) ∧ filter_distance_tyo 450 = -1 :=
  ⟨Or.inr (by norm_num),
    C6_distance_computation.2.2 450 (Or.inr (by norm_num))⟩

/-- Claim C7 (code evaluated at the failing input): with the echo line stuck
low and a timebase advancing 10 µs per `gpioTick` call, the tyouonpa01
driver never takes its timeout branch — the rising-edge wait spins for any
number of iterations, because the 50 ms comparison is made against the
marker refreshed in the previous iteration, not against the start of the
wait.  The clock itself passes 50 ms after 5000 calls, yet the function
never returns at all. -/
theorem C7_timeout_never_fires (fuel : ℕ) :
    get_distance_ultrasonic_tyo echo_stuck_low tick_10us_per_call fuel
      = none ∧ tick_10us_per_call 5001 > 50000 := by
  constructor
  · unfold get_distance_ultrasonic_tyo
    rw [show wait_edge_tyo echo_stuck_low tick_10us_per_call true fuel 0 1
          (tick_10us_per_call 0) = WaitOut.spin from
        wait_edge_tyo_stuck_spins fuel 0 0]
  · norm_num [tick_10us_per_call]

/-- Claim C8 counterexample: in a ras_eye01 iteration where no face was
found, the ultrasonic sensor is not invoked at all, contradicting the claim
that the driver runs in every iteration regardless of target detection. -/
theorem C8_loop_structure_counterexample :
    (ras_eye01_iteration (-1) (-1) initial_state 0).2.sensor_invoked
      = false := by
  decide

/-- Claim C8 as amended: in ras_eye02 every iteration invokes the sensor and
writes the alert decision to the LED, and the settle sleep happens exactly
when a target was found; in ras_eye01 the sensor invocation and the settle
sleep both happen exactly when a target was found, and with no target the
LED is simply switched off. -/
theorem C8_loop_structure :
    (∀ (x y : ℤ) (s : ActuatorState) (d : ℚ),
        (ras_eye02_iteration x y s d).2.sensor_invoked = true ∧
        (ras_eye02_iteration x y s d).2.settle_sleep = decide (x ≠ -1) ∧
        (ras_eye02_iteration x y s d).2.led_on
          = led_on_ras_eye02 d DISTANCE_THRESHOLD) ∧
    (∀ (x y : ℤ) (s : ActuatorState) (u : ℚ),
        (ras_eye01_iteration x y s u).2.sensor_invoked
          = decide (x ≠ -1 ∧ y ≠ -1) ∧
        (ras_eye01_iteration x y s u).2.settle_sleep
          = decide (x ≠ -1 ∧ y ≠ -1) ∧
        (¬(x ≠ -1 ∧ y ≠ -1) →
          (ras_eye01_iteration x y s u).2.led_on = false)) := by
  constructor
  · intro x y s d
    exact ⟨rfl, rfl, rfl⟩
  · intro x y s u
    by_cases h : x ≠ -1 ∧ y ≠ -1
    · refine ⟨by simp [ras_eye01_iteration, h], by simp [ras_eye01_iteration, h], ?_⟩
      intro hcon
      exact absurd h hcon
    · refine ⟨by simp [ras_eye01_iteration, h], ?_, ?_⟩
      · simp only [ras_eye01_iteration, if_neg h]
        simp [h]
      · intro _
        simp [ras_eye01_iteration, if_neg h]

/-- Witness for C8 at a concrete no-target ras_eye01 iteration: the LED is
forced off. -/
theorem C8_loop_structure_witness :
    (ras_eye01_iteration (-1) 100 initial_state 0).2.led_on = false :=
  (C8_loop_structure.2 (-1) 100 initial_state 0).2.2 (by decide)

/-- Claim C10: whatever the injected echo line, timebase and fuel, whenever
the measurement function returns a value it is either the failure sentinel
(-1.0 in tyouonpa01, 999.0 in ras_eye02) or a reading inside [0, 400] cm;
both sentinels lie outside [0, 400], so a returned sentinel can never be a
genuine in-range measurement. -/
theorem C10_sentinel_range :
    (∀ (echo : ℕ → Bool) (tick : ℕ → ℕ) (fuel : ℕ) (d : ℚ),
        get_distance_ultrasonic_tyo echo tick fuel = some d →
        (d = -1 ∧ ¬(0 ≤ (-1 : ℚ) ∧ (-1 : ℚ) ≤ 400)) ∨ (0 ≤ d ∧ d ≤ 400)) ∧
    (∀ (echo : ℕ → Bool) (now : ℕ → ℚ) (fuel : ℕ) (d : ℚ),
        get_distance_ultrasonic_eye2 echo now fuel = some d →
        (d = 999 ∧ ¬(0 ≤ (999 : ℚ) ∧ (999 : ℚ) ≤ 400)) ∨ (0 ≤ d ∧ d ≤ 400)) := by
  constructor
  · intro echo tick fuel d h
    unfold get_distance_ultrasonic_tyo at h
    split at h
    · exact absurd h (by simp)
    · simp only [Option.some.injEq] at h
      exact Or.inl ⟨h.symm, by norm_num⟩
    · split at h
      · exact absurd h (by simp)
      · simp only [Option.some.injEq] at h
        exact Or.inl ⟨h.symm, by norm_num⟩
      · simp only [Option.some.injEq] at h
        subst h
        refine (filter_distance_tyo_cases _).imp ?_ (fun hc => hc)
        intro hc
        exact ⟨hc, by norm_num⟩
  · intro echo now fuel d h
    unfold get_distance_ultrasonic_eye2 at h
    split at h
    · exact absurd h (by simp)
    · simp only [Option.some.injEq] at h
      exact Or.inl ⟨h.symm, by norm_num⟩
    · split at h
      · exact absurd h (by simp)
      · simp only [Option.some.injEq] at h
        exact Or.inl ⟨h.symm, by norm_num⟩
      · split_ifs at h with hr
        · simp only [Option.some.injEq] at h
          exact Or.inl ⟨h.symm, by norm_num⟩
        · simp only [Option.some.injEq] at h
          subst h
          push_neg at hr
          exact Or.inr ⟨hr.1, hr.2⟩

/-- Witness for C10: a one-pulse echo with a 1000 µs pulse yields a valid
17.15 cm reading in both drivers. -/
theorem C10_sentinel_range_witness :
    ((((343 : ℚ) / 20 = -1 ∧ ¬(0 ≤ (-1 : ℚ) ∧ (-1 : ℚ) ≤ 400)) ∨
        (0 ≤ (343 : ℚ) / 20 ∧ (343 : ℚ) / 20 ≤ 400))) ∧
    ((((343 : ℚ) / 20 = 999 ∧ ¬(0 ≤ (999 : ℚ) ∧ (999 : ℚ) ≤ 400)) ∨
        (0 ≤ (343 : ℚ) / 20 ∧ (343 : ℚ) / 20 ≤ 400))) :=
  ⟨C10_sentinel_range.1 echo_one_pulse tick_1000us_per_call 1 (343 / 20)
      (by
        have h1 : wait_edge_tyo echo_one_pulse tick_1000us_per_call true 1 0 1
            (tick_1000us_per_call 0) = WaitOut.done (tick_1000us_per_call 0) 1 1 := rfl
        have h2 : wait_edge_tyo echo_one_pulse tick_1000us_per_call false 1 1 (1 + 1)
            (tick_1000us_per_call 1) = WaitOut.done (tick_1000us_per_call 1) 2 (1 + 1) := rfl
        unfold get_distance_ultrasonic_tyo
        rw [h1]
        dsimp only
        rw [h2]
        dsimp only
        norm_num [tick_1000us_per_call, filter_distance_tyo, distance_from_pulse,
          SOUND_SPEED_CM_PER_S]),
    C10_sentinel_range.2 echo_one_pulse now_ms_per_call 1 (343 / 20)
      (by
        have h1 : wait_edge_eye2 echo_one_pulse now_ms_per_call true 1 0 3
            (now_ms_per_call 0) (now_ms_per_call 2)
            = WaitOutQ.done (now_ms_per_call 0) 1 3 := rfl
        have h2 : wait_edge_eye2 echo_one_pulse now_ms_per_call false 1 1 (3 + 1)
            (now_ms_per_call 1) (now_ms_per_call 3)
            = WaitOutQ.done (now_ms_per_call 1) 2 (3 + 1) := rfl
        unfold get_distance_ultrasonic_eye2
        rw [h1]
        dsimp only
        rw [h2]
        dsimp only
        norm_num [now_ms_per_call])⟩
